import Mathlib

/-!
Verification of the LGPMD RDF-analysis utilities
(`utility/rdf_analysis.py` from the tutorial and paper code).

The numerical code is embedded shallowly over `ℚ` (exact arithmetic in
place of IEEE floats, with the fixed left-to-right summation order of the
source).  External collaborators (numpy's `sin`/`pi` constants, the
`np.nextafter` float step, the freud spatial-query and clustering
library) are abstracted as explicit function parameters: the repository
code only composes their results.  Fallible Python code (IndexError,
ValueError, NameError, ZeroDivisionError) is embedded as `Except`
returning the error taxonomy of the design (InvalidInput / Lookup),
with a `runtimeError` kind for the unbound-variable and division-by-zero
failures that fall outside that taxonomy.
-/

/-- Error taxonomy of the design: `invalidInput` for malformed numeric
ranges / too-short sequences / empty trajectories, `lookupError` for a
species name absent from a frame's type registry, `runtimeError` for
Python runtime failures outside the taxonomy (NameError on an unbound
local, ZeroDivisionError). -/
inductive RdfError where
  | invalidInput
  | lookupError
  | runtimeError
deriving DecidableEq, Repr

/-- `np.linspace(start, stop, num)`: `num` evenly spaced samples,
`y[j] = start + j*(stop-start)/(num-1)`, with the final sample then
assigned `stop` exactly (numpy's `endpoint=True` behaviour). -/
def np_linspace (start stop : ℚ) (num : Nat) : List ℚ :=
  (((List.range num).map fun j : Nat =>
      start + (j : ℚ) * ((stop - start) / ((num : ℚ) - 1)))).set
    (num - 1) stop

/-- `np.trapz(y, dx=d)`: the trapezoidal rule with fixed sample
distance, `sum(d * (y[1:] + y[:-1]) / 2)`, accumulated left to right. -/
def np_trapz (y : List ℚ) (dx : ℚ) : ℚ :=
  (List.zipWith (fun a b => dx * (b + a) / 2) y (y.drop 1)).foldl (· + ·) 0

/-- The elementwise integrand `r*(rdf-1)*np.sin(q[j]*r)` of `rdf2sq`,
for parallel sample sequences `r` and `rdf` at fixed momentum `qj`
(numpy rejects mismatched lengths; the claims quantify over equal-length
inputs). -/
def integrandSamples (sinF : ℚ → ℚ) (r rdf : List ℚ) (qj : ℚ) : List ℚ :=
  List.zipWith (fun ri gi => ri * (gi - 1) * sinF (qj * ri)) r rdf

/-- Embedding of `rdf2sq(r, rdf, Qmin, Qmax, ρ)`
(`utility/rdf_analysis.py`).  numpy's `sin` and `pi` are external
constants and enter as parameters `sinF` and `piC`.  The step size is
`dr = r[1] - r[0]`; indexing a sequence of fewer than 2 samples raises
(IndexError, classified InvalidInput by the design taxonomy), so that
case is an error. -/
def rdf2sq (sinF : ℚ → ℚ) (piC : ℚ) (r rdf : List ℚ) (Qmin Qmax ρ : ℚ) :
    Except RdfError (List ℚ × List ℚ) :=
  match r.get? 1, r.get? 0 with
  | some r1, some r0 =>
    let q := np_linspace Qmin Qmax 1000
    let dr := r1 - r0
    let sq := q.map fun qj =>
      1 + 4 * piC * ρ * np_trapz (integrandSamples sinF r rdf qj) dr / qj
    .ok (q, sq)
  | _, _ => .error .invalidInput

/-- Written from the spec's words, for refinement comparison with
`np_trapz`: the left-to-right trapezoidal-rule quadrature of a sampled
function with fixed step `dr` — the sum over consecutive sample pairs of
the pair's average times the step. -/
def specTrapezoid (vals : List ℚ) (dr : ℚ) : ℚ :=
  match vals with
  | a :: b :: rest => (a + b) / 2 * dr + specTrapezoid (b :: rest) dr
  | _ => 0

section LinspaceLemmas

lemma list_set_of_get? {α : Type} (l : List α) (n : Nat) (a : α)
    (h : l.get? n = some a) : l.set n a = l := by
  induction l generalizing n with
  | nil => simp at h
  | cons x xs ih =>
    cases n with
    | zero => simp at h; simp [h]
    | succ m =>
      simp only [List.get?_cons_succ] at h
      simp [List.set, ih m h]

lemma np_linspace_eq_map (a b : ℚ) :
    np_linspace a b 1000 =
      (List.range 1000).map fun j : Nat => a + (j : ℚ) * ((b - a) / 999) := by
  unfold np_linspace
  have h999 : (((1000 : Nat) : ℚ) - 1) = 999 := by norm_num
  rw [h999]
  apply list_set_of_get?
  have hlt : (999 : Nat) < 1000 := by norm_num
  rw [List.get?_eq_getElem?, List.getElem?_map, List.getElem?_range hlt]
  simp only [Option.map_some']
  congr 1
  have h9 : ((999 : Nat) : ℚ) = 999 := by norm_num
  rw [h9]
  field_simp

lemma np_linspace_getD (a b : ℚ) (j : Nat) (hj : j < 1000) :
    (np_linspace a b 1000).getD j 0 = a + (j : ℚ) * ((b - a) / 999) := by
  rw [np_linspace_eq_map, List.getD_eq_getD_get?, List.get?_eq_getElem?,
    List.getElem?_map, List.getElem?_range hj]
  rfl

lemma np_linspace_length (a b : ℚ) : (np_linspace a b 1000).length = 1000 := by
  rw [np_linspace_eq_map]; simp

end LinspaceLemmas

section TrapzLemmas

lemma foldl_add_shift (l : List ℚ) (c : ℚ) :
    l.foldl (· + ·) c = c + l.foldl (· + ·) 0 := by
  induction l generalizing c with
  | nil => simp
  | cons x xs ih =>
    simp only [List.foldl_cons]
    rw [ih (c + x), ih (0 + x)]
    ring

/-- `np.trapz` with fixed `dx` computes exactly the spec's left-to-right
trapezoidal-rule quadrature. -/
lemma np_trapz_eq_specTrapezoid (y : List ℚ) (dx : ℚ) :
    np_trapz y dx = specTrapezoid y dx := by
  induction y with
  | nil => simp [np_trapz, specTrapezoid]
  | cons a ys ih =>
    cases ys with
    | nil => simp [np_trapz, specTrapezoid]
    | cons b rest =>
      have h1 : np_trapz (a :: b :: rest) dx
          = dx * (b + a) / 2 + np_trapz (b :: rest) dx := by
        simp only [np_trapz, List.drop_succ_cons, List.drop_zero,
          List.zipWith_cons_cons, List.foldl_cons]
        rw [foldl_add_shift]
        ring_nf
      rw [h1, ih]
      simp only [specTrapezoid]
      ring

lemma getD_map_of_lt (f : ℚ → ℚ) (l : List ℚ) (n : Nat) (h : n < l.length)
    (d d' : ℚ) : (l.map f).getD n d = f (l.getD n d') := by
  rw [List.getD_eq_getD_get?, List.getD_eq_getD_get?, List.get?_eq_getElem?,
    List.get?_eq_getElem?, List.getElem?_map, List.getElem?_eq_getElem h]
  rfl

end TrapzLemmas

section Rdf2sqLemmas

lemma exists_cons_cons_of_two_le (r : List ℚ) (h : 2 ≤ r.length) :
    ∃ r0 r1 rest, r = r0 :: r1 :: rest := by
  match r with
  | [] => simp at h
  | [x] => simp at h
  | r0 :: r1 :: rest => exact ⟨r0, r1, rest, rfl⟩

lemma rdf2sq_ok_eq (sinF : ℚ → ℚ) (piC r0 r1 : ℚ) (rest rdf : List ℚ)
    (Qmin Qmax ρ : ℚ) :
    rdf2sq sinF piC (r0 :: r1 :: rest) rdf Qmin Qmax ρ =
      .ok (np_linspace Qmin Qmax 1000,
        (np_linspace Qmin Qmax 1000).map fun qj =>
          1 + 4 * piC * ρ *
            np_trapz (integrandSamples sinF (r0 :: r1 :: rest) rdf qj) (r1 - r0) / qj) :=
  rfl

end Rdf2sqLemmas

/-- C1: for radii of length ≥ 2 on a uniform strictly increasing grid,
the j-th output of `rdf2sq` equals
`1 + 4π·density·(1/q_j)` times the left-to-right trapezoidal-rule
quadrature of `r·(g(r)−1)·sin(q_j·r)` with fixed step `dr = r[1]-r[0]`. -/
theorem rdf2sq_matches_spec_formula (sinF : ℚ → ℚ) (piC : ℚ) (r rdf : List ℚ)
    (Qmin Qmax ρ : ℚ) (h2 : 2 ≤ r.length) (hlen : rdf.length = r.length)
    (hunif : List.Chain' (fun x y => y - x = r.getD 1 0 - r.getD 0 0) r)
    (hinc : r.getD 0 0 < r.getD 1 0) (j : Nat) (hj : j < 1000) :
    ∃ q sq : List ℚ, rdf2sq sinF piC r rdf Qmin Qmax ρ = .ok (q, sq) ∧
      sq.getD j 0 = 1 + 4 * piC * ρ * (1 / q.getD j 0) *
        specTrapezoid (integrandSamples sinF r rdf (q.getD j 0))
          (r.getD 1 0 - r.getD 0 0) := by
  obtain ⟨r0, r1, rest, rfl⟩ := exists_cons_cons_of_two_le r h2
  refine ⟨np_linspace Qmin Qmax 1000, _, rdf2sq_ok_eq sinF piC r0 r1 rest rdf Qmin Qmax ρ, ?_⟩
  have hlen1000 : j < (np_linspace Qmin Qmax 1000).length := by
    rw [np_linspace_length]; exact hj
  rw [getD_map_of_lt _ _ j hlen1000 0 0]
  rw [np_trapz_eq_specTrapezoid]
  have hgetD : ((r0 :: r1 :: rest).getD 1 0 : ℚ) = r1 := rfl
  have hgetD0 : ((r0 :: r1 :: rest).getD 0 0 : ℚ) = r0 := rfl
  rw [hgetD, hgetD0]
  ring

/-- C4: with `Qmin < Qmax` (and enough radius samples for the call to
return), the momentum grid of `rdf2sq` has exactly 1000 points, is
strictly increasing and evenly spaced, starts at `Qmin`, ends at `Qmax`,
and the structure-factor output has the same length. -/
theorem rdf2sq_qgrid_shape (sinF : ℚ → ℚ) (piC : ℚ) (r rdf : List ℚ)
    (Qmin Qmax ρ : ℚ) (hQ : Qmin < Qmax) (h2 : 2 ≤ r.length) :
    ∃ q sq : List ℚ, rdf2sq sinF piC r rdf Qmin Qmax ρ = .ok (q, sq) ∧
      q.length = 1000 ∧ List.Chain' (· < ·) q ∧
      List.Chain' (fun x y => y - x = (Qmax - Qmin) / 999) q ∧
      q.getD 0 0 = Qmin ∧ q.getD 999 0 = Qmax ∧ sq.length = q.length := by
  obtain ⟨r0, r1, rest, rfl⟩ := exists_cons_cons_of_two_le r h2
  refine ⟨np_linspace Qmin Qmax 1000, _, rdf2sq_ok_eq sinF piC r0 r1 rest rdf Qmin Qmax ρ,
    np_linspace_length Qmin Qmax, ?_, ?_, ?_, ?_, by simp⟩
  · rw [np_linspace_eq_map, List.chain'_map]
    have h1000 : (1000 : Nat) = 999 + 1 := rfl
    rw [h1000, List.chain'_range_succ]
    intro m hm
    have hstep : (0:ℚ) < (Qmax - Qmin) / 999 := by
      apply div_pos (by linarith) (by norm_num)
    have hc : ((m + 1 : Nat) : ℚ) = (m : ℚ) + 1 := by push_cast; ring
    rw [hc]
    nlinarith [hstep]
  · rw [np_linspace_eq_map, List.chain'_map]
    have h1000 : (1000 : Nat) = 999 + 1 := rfl
    rw [h1000, List.chain'_range_succ]
    intro m hm
    have hc : ((m + 1 : Nat) : ℚ) = (m : ℚ) + 1 := by push_cast; ring
    rw [hc]
    ring
  · rw [np_linspace_getD Qmin Qmax 0 (by norm_num)]
    norm_num
  · rw [np_linspace_getD Qmin Qmax 999 (by norm_num)]
    have h9 : ((999 : Nat) : ℚ) = 999 := by norm_num
    rw [h9]
    field_simp

/-- C5: replacing `density` by `k*density` in `rdf2sq` scales the
deviation term `S(q) − 1` by exactly `k` at every grid point, for a
fixed RDF input. -/
theorem rdf2sq_density_linearity (sinF : ℚ → ℚ) (piC : ℚ) (r rdf : List ℚ)
    (Qmin Qmax ρ k : ℚ) (h2 : 2 ≤ r.length) (j : Nat) (hj : j < 1000) :
    ∃ q sq sqk : List ℚ, rdf2sq sinF piC r rdf Qmin Qmax ρ = .ok (q, sq) ∧
      rdf2sq sinF piC r rdf Qmin Qmax (k * ρ) = .ok (q, sqk) ∧
      sqk.getD j 0 - 1 = k * (sq.getD j 0 - 1) := by
  obtain ⟨r0, r1, rest, rfl⟩ := exists_cons_cons_of_two_le r h2
  refine ⟨np_linspace Qmin Qmax 1000, _, _,
    rdf2sq_ok_eq sinF piC r0 r1 rest rdf Qmin Qmax ρ,
    rdf2sq_ok_eq sinF piC r0 r1 rest rdf Qmin Qmax (k * ρ), ?_⟩
  have hlen1000 : j < (np_linspace Qmin Qmax 1000).length := by
    rw [np_linspace_length]; exact hj
  rw [getD_map_of_lt _ _ j hlen1000 0 0, getD_map_of_lt _ _ j hlen1000 0 0]
  ring

/-- C6: given fewer than 2 radius samples, `rdf2sq` fails with an
InvalidInput error (the Python code raises IndexError at `r[1]`) and
produces no output. -/
theorem rdf2sq_short_input_fails (sinF : ℚ → ℚ) (piC : ℚ) (r rdf : List ℚ)
    (Qmin Qmax ρ : ℚ) (h : r.length < 2) :
    rdf2sq sinF piC r rdf Qmin Qmax ρ = .error .invalidInput := by
  have h1 : r.get? 1 = none := List.get?_eq_none.mpr (by omega)
  unfold rdf2sq
  rw [h1]

/-- C7: when `0 < Qmin < Qmax`, every momentum-grid divisor used by
`rdf2sq` is nonzero, so the division-by-zero case is unreachable; when
`Qmin = 0` the first grid point is exactly `0`, making the first
division's divisor zero (the numerically singular case). -/
theorem rdf2sq_division_safety (sinF : ℚ → ℚ) (piC : ℚ) (r rdf : List ℚ)
    (Qmin Qmax ρ : ℚ) (h2 : 2 ≤ r.length) :
    (0 < Qmin → Qmin < Qmax →
      ∃ q sq : List ℚ, rdf2sq sinF piC r rdf Qmin Qmax ρ = .ok (q, sq) ∧
        ∀ j, j < 1000 → q.getD j 0 ≠ 0) ∧
    (Qmin = 0 →
      ∃ q sq : List ℚ, rdf2sq sinF piC r rdf Qmin Qmax ρ = .ok (q, sq) ∧
        q.getD 0 0 = 0) := by
  obtain ⟨r0, r1, rest, rfl⟩ := exists_cons_cons_of_two_le r h2
  constructor
  · intro hpos hlt
    refine ⟨np_linspace Qmin Qmax 1000, _,
      rdf2sq_ok_eq sinF piC r0 r1 rest rdf Qmin Qmax ρ, ?_⟩
    intro j hj
    rw [np_linspace_getD Qmin Qmax j hj]
    have hstep : (0:ℚ) ≤ (Qmax - Qmin) / 999 := by
      apply le_of_lt; apply div_pos (by linarith) (by norm_num)
    have hjnn : (0:ℚ) ≤ (j : ℚ) := Nat.cast_nonneg j
    nlinarith
  · intro h0
    refine ⟨np_linspace Qmin Qmax 1000, _,
      rdf2sq_ok_eq sinF piC r0 r1 rest rdf Qmin Qmax ρ, ?_⟩
    rw [np_linspace_getD Qmin Qmax 0 (by norm_num), h0]
    norm_num

/-- Witness for C1 at a concrete input. -/
theorem rdf2sq_matches_spec_formula_witness :
    ∃ q sq : List ℚ, rdf2sq (fun _ => 1) 3 [0, 1] [1, 1] 1 2 1 = .ok (q, sq) ∧
      sq.getD 0 0 = 1 + 4 * 3 * 1 * (1 / q.getD 0 0) *
        specTrapezoid (integrandSamples (fun _ => 1) [0, 1] [1, 1] (q.getD 0 0))
          (([0, 1] : List ℚ).getD 1 0 - ([0, 1] : List ℚ).getD 0 0) :=
  rdf2sq_matches_spec_formula (fun _ => 1) 3 [0, 1] [1, 1] 1 2 1
    (by norm_num) (by norm_num)
    (by norm_num [List.chain'_cons, List.chain'_singleton,
      List.getD_cons_succ, List.getD_cons_zero])
    (by norm_num [List.getD_cons_succ, List.getD_cons_zero])
    0 (by norm_num)

/-- Witness for C4 at a concrete input. -/
theorem rdf2sq_qgrid_shape_witness :
    ∃ q sq : List ℚ, rdf2sq (fun _ => 1) 3 [0, 1] [1, 1] 1 2 1 = .ok (q, sq) ∧
      q.length = 1000 ∧ List.Chain' (· < ·) q ∧
      List.Chain' (fun x y => y - x = ((2 : ℚ) - 1) / 999) q ∧
      q.getD 0 0 = 1 ∧ q.getD 999 0 = 2 ∧ sq.length = q.length :=
  rdf2sq_qgrid_shape (fun _ => 1) 3 [0, 1] [1, 1] 1 2 1
    (by norm_num) (by norm_num)

/-- Witness for C5 at a concrete input. -/
theorem rdf2sq_density_linearity_witness :
    ∃ q sq sqk : List ℚ, rdf2sq (fun _ => 1) 3 [0, 1] [1, 1] 1 2 1 = .ok (q, sq) ∧
      rdf2sq (fun _ => 1) 3 [0, 1] [1, 1] 1 2 (2 * 1) = .ok (q, sqk) ∧
      sqk.getD 0 0 - 1 = 2 * (sq.getD 0 0 - 1) :=
  rdf2sq_density_linearity (fun _ => 1) 3 [0, 1] [1, 1] 1 2 1 2
    (by norm_num) 0 (by norm_num)

/-- Witness for C6 at a concrete input. -/
theorem rdf2sq_short_input_fails_witness :
    rdf2sq (fun _ => 1) 3 [5] [1] 1 2 1 = .error .invalidInput :=
  rdf2sq_short_input_fails (fun _ => 1) 3 [5] [1] 1 2 1 (by norm_num)

/-- Witness for C7 at a concrete input. -/
theorem rdf2sq_division_safety_witness :
    ((0 : ℚ) < 1 → (1 : ℚ) < 2 →
      ∃ q sq : List ℚ, rdf2sq (fun _ => 1) 3 [0, 1] [1, 1] 1 2 1 = .ok (q, sq) ∧
        ∀ j, j < 1000 → q.getD j 0 ≠ 0) ∧
    ((1 : ℚ) = 0 →
      ∃ q sq : List ℚ, rdf2sq (fun _ => 1) 3 [0, 1] [1, 1] 1 2 1 = .ok (q, sq) ∧
        q.getD 0 0 = 0) :=
  rdf2sq_division_safety (fun _ => 1) 3 [0, 1] [1, 1] 1 2 1 (by norm_num)

/-! ## Intermolecular RDF accumulator (`intermolecular_rdf`) -/

/-- A periodic simulation box descriptor, `snap.configuration.box`:
three edge lengths followed by three tilt factors. -/
structure SimBox where
  Lx : ℚ
  Ly : ℚ
  Lz : ℚ
  xy : ℚ
  xz : ℚ
  yz : ℚ
deriving DecidableEq, Repr

/-- A particle position. -/
abbrev Pos3 : Type := ℚ × ℚ × ℚ

/-- One trajectory frame (`gsd` snapshot): particle positions, the
per-particle type ids, the type-name registry, the bond table and the
periodic box. -/
structure Frame where
  position : List Pos3
  typeid : List Nat
  types : List String
  bonds : List (Nat × Nat)
  box : SimBox
deriving DecidableEq, Repr

/-- One entry of a freud neighbor list: a query-point index, a point
index and the pair distance. -/
structure NPair where
  query_point_index : Nat
  point_index : Nat
  distance : ℚ
deriving DecidableEq, Repr

/-- The freud `AABBQuery.query(...).toNeighborList()` collaborator:
from a box, the points (species A), the query points (species B), the
search radius and the self-exclusion flag, produce a neighbor list.
External black box, passed in as a parameter. -/
abbrev QueryFn : Type := SimBox → List Pos3 → List Pos3 → ℚ → Bool → List NPair

/-- The freud `cluster.Cluster` collaborator used by
`snap_molecule_indices`: a molecule (connected-component) label per
particle, computed from the frame's bond graph.  External black box,
passed in as a parameter. -/
abbrev ClusterFn : Type := Frame → List Nat

/-- Embedding of `snap_molecule_indices(snap)`: the body delegates
entirely to the external freud clustering collaborator. -/
def snap_molecule_indices (cluster : ClusterFn) (snap : Frame) : List Nat :=
  cluster snap

/-- numpy boolean-mask indexing `xs[mask]`: keep the entries whose mask
bit is true. -/
def maskSelect {α : Type} (mask : List Bool) (xs : List α) : List α :=
  ((mask.zip xs).filter (fun p => p.1)).map (fun p => p.2)

/-- Python `list.index(name)` on the type registry: the position of the
first occurrence, or a failure (`ValueError`) when the name is absent. -/
def typeIndex (types : List String) (name : String) : Option Nat :=
  types.indexOf? name

/-- The boolean species mask `snap.particles.typeid == i`. -/
def typeMask (snap : Frame) (i : Nat) : List Bool :=
  snap.typeid.map (fun t => t == i)

/-- Python slicing `trajectory[start:stop]` (for the nonnegative
arguments the accumulator uses; `stop=None` means to the end). -/
def pySlice {α : Type} (start : Nat) (stop : Option Nat) (xs : List α) : List α :=
  match stop with
  | none => xs.drop start
  | some s => (xs.take s).drop start

/-- `r_max` derivation when the caller supplies none: one
representable-value step toward `0` (`np.nextafter(·, 0)`, the external
float-step collaborator `next`) from half the LARGEST of the three box
edge lengths `np.max(snap.configuration.box[:3]) * 0.5`. -/
def derive_rmax (next : ℚ → ℚ) (box : SimBox) : ℚ :=
  next (max box.Lx (max box.Ly box.Lz) * (1 / 2))

/-- The effective search radius of a call: the supplied `r_max`, or the
derived one. -/
def eff_rmax (next : ℚ → ℚ) (r_max : Option ℚ) (box : SimBox) : ℚ :=
  match r_max with
  | some v => v
  | none => derive_rmax next box

/-- The neighbor list of one frame: A/B positions are the first frame's
species masks applied to this frame's positions; when the two species
names coincide, B reuses A's positions and self-pairs are excluded. -/
def frame_nlist (query : QueryFn) (typeA typeB : List Bool) (sameName : Bool)
    (rmax : ℚ) (snap : Frame) : List NPair :=
  let A_pos := maskSelect typeA snap.position
  let B_pos := if sameName then A_pos else maskSelect typeB snap.position
  query snap.box A_pos B_pos rmax sameName

/-- `nlist.filter(indices_A != indices_B)`: keep the pairs whose two
molecule labels differ (`molecules_A[nlist.point_indices]` against
`molecules_B[nlist.query_point_indices]`). -/
def filter_bonded (molsA molsB : List Nat) (nl : List NPair) : List NPair :=
  nl.filter (fun p => molsA.getD p.point_index 0 != molsB.getD p.query_point_index 0)

/-- The Python locals that survive the per-frame loop: the external RDF
histogram object (abstracted as the sequence of neighbor lists folded
into it, `reset=False`) and the `pre_filter` / `post_filter` counters,
unassigned (`none`) until the loop body first runs. -/
structure LoopState where
  rdfAcc : List (List NPair)
  preFilter : Option Nat
  postFilter : Option Nat
deriving DecidableEq, Repr

/-- One iteration of the loop `for snap in trajectory[start:stop]`. -/
def process_frame (query : QueryFn) (typeA typeB : List Bool) (sameName : Bool)
    (rmax : ℚ) (exclude_bonded : Bool) (molsA molsB : List Nat)
    (st : LoopState) (snap : Frame) : LoopState :=
  let nlist := frame_nlist query typeA typeB sameName rmax snap
  if exclude_bonded then
    let filtered := filter_bonded molsA molsB nlist
    { rdfAcc := st.rdfAcc ++ [filtered],
      preFilter := some nlist.length,
      postFilter := some filtered.length }
  else
    { rdfAcc := st.rdfAcc ++ [nlist],
      preFilter := st.preFilter,
      postFilter := st.postFilter }

/-- Pairs found in a frame before same-molecule exclusion
(`pre_filter = len(nlist)`). -/
def frame_pre_count (query : QueryFn) (typeA typeB : List Bool) (sameName : Bool)
    (rmax : ℚ) (snap : Frame) : Nat :=
  (frame_nlist query typeA typeB sameName rmax snap).length

/-- Pairs remaining in a frame after same-molecule exclusion
(`post_filter = len(nlist)` after `nlist.filter`). -/
def frame_post_count (query : QueryFn) (typeA typeB : List Bool) (sameName : Bool)
    (rmax : ℚ) (molsA molsB : List Nat) (snap : Frame) : Nat :=
  (filter_bonded molsA molsB (frame_nlist query typeA typeB sameName rmax snap)).length

/-- Embedding of `intermolecular_rdf(gsdfile, A_name, B_name, start,
stop, r_max, r_min, bins, exclude_bonded)`.  The trajectory file is the
list of its frames; `query`, `cluster` and `next` are the external
freud / numpy collaborators.  Failures, in source order: `trajectory[0]`
on an empty trajectory (empty-input error); the
`freud.density.RDF(bins=..., r_max=..., r_min=...)` constructor —
modelled from the spec: fails with InvalidInput when `bins < 1`,
`r_min < 0` or `r_min ≥ r_max` (the freud library's own validation, not
repository code); `types.index` on an unknown species name (Lookup);
and the final `post_filter / pre_filter`, a NameError when the loop
never assigned the counters and a ZeroDivisionError when `pre_filter`
is `0` (both `runtimeError`). -/
def intermolecular_rdf (query : QueryFn) (cluster : ClusterFn) (next : ℚ → ℚ)
    (trajectory : List Frame) (A_name B_name : String)
    (start : Nat) (stop : Option Nat) (r_max : Option ℚ) (r_min : ℚ)
    (bins : ℤ) (exclude_bonded : Bool) :
    Except RdfError (List (List NPair) × ℚ) :=
  match trajectory with
  | [] => .error .invalidInput
  | snap0 :: _ =>
    let rmax := eff_rmax next r_max snap0.box
    if bins < 1 ∨ r_min < 0 ∨ r_min ≥ rmax then .error .invalidInput
    else
      match typeIndex snap0.types A_name, typeIndex snap0.types B_name with
      | some iA, some iB =>
        let typeA := typeMask snap0 iA
        let typeB := typeMask snap0 iB
        let molecules := snap_molecule_indices cluster snap0
        let molsA := if exclude_bonded then maskSelect typeA molecules else []
        let molsB := if exclude_bonded then maskSelect typeB molecules else []
        let st := (pySlice start stop trajectory).foldl
          (process_frame query typeA typeB (A_name == B_name) rmax
            exclude_bonded molsA molsB)
          ⟨[], none, none⟩
        if exclude_bonded then
          match st.preFilter, st.postFilter with
          | some pre, some post =>
            if pre = 0 then .error .runtimeError
            else .ok (st.rdfAcc, (post : ℚ) / (pre : ℚ))
          | _, _ => .error .runtimeError
        else .ok (st.rdfAcc, 1)
      | _, _ => .error .lookupError

/-- A concrete stand-in for the external `np.nextafter(·, 0)` step used
in witnesses and counterexamples: one small downward step. -/
def floatStepDown (x : ℚ) : ℚ := x - 1 / 4194304

/-- A box with distinct edge lengths `2, 4, 6` and no tilt. -/
def boxC2 : SimBox := ⟨2, 4, 6, 0, 0, 0⟩

/-- C2 counterexample: on a box with edges `2, 4, 6`, the derived
search radius is just below `3` (half the LARGEST edge), which is not
below `1`, half the smallest edge — refuting the claim that the radius
is just below half the smallest enclosing dimension. -/
theorem derive_rmax_counterexample :
    derive_rmax floatStepDown boxC2 = 3 - 1 / 4194304 ∧
    (1 / 2) * min boxC2.Lx (min boxC2.Ly boxC2.Lz) = 1 ∧
    ¬ derive_rmax floatStepDown boxC2 < (1 / 2) * min boxC2.Lx (min boxC2.Ly boxC2.Lz) := by
  refine ⟨?_, ?_, ?_⟩ <;> norm_num [derive_rmax, floatStepDown, boxC2]

/-- C2 (amended): when `rMax` is not supplied, the search radius used
by `intermolecular_rdf` is the value just below half the LARGEST
enclosing dimension of the first frame's box — one
next-smaller-representable-value step from half the largest edge, hence
strictly less than half the largest edge (for any genuinely decreasing
step function). -/
theorem derive_rmax_below_half_largest (next : ℚ → ℚ)
    (hnext : ∀ x : ℚ, 0 < x → next x < x) (box : SimBox)
    (hx : 0 < box.Lx) (hy : 0 < box.Ly) (hz : 0 < box.Lz) :
    eff_rmax next none box = next (max box.Lx (max box.Ly box.Lz) * (1 / 2)) ∧
    eff_rmax next none box < max box.Lx (max box.Ly box.Lz) * (1 / 2) := by
  have hM : (0:ℚ) < max box.Lx (max box.Ly box.Lz) :=
    lt_of_lt_of_le hx (le_max_left _ _)
  have hpos : (0:ℚ) < max box.Lx (max box.Ly box.Lz) * (1 / 2) :=
    mul_pos hM (by norm_num)
  exact ⟨rfl, hnext _ hpos⟩

/-- Witness for the amended C2 at a concrete input. -/
theorem derive_rmax_below_half_largest_witness :
    eff_rmax floatStepDown none boxC2 =
      floatStepDown (max boxC2.Lx (max boxC2.Ly boxC2.Lz) * (1 / 2)) ∧
    eff_rmax floatStepDown none boxC2 <
      max boxC2.Lx (max boxC2.Ly boxC2.Lz) * (1 / 2) :=
  derive_rmax_below_half_largest floatStepDown
    (fun x hx => by unfold floatStepDown; linarith)
    boxC2 (by norm_num [boxC2]) (by norm_num [boxC2]) (by norm_num [boxC2])

section LoopLemmas

lemma foldl_process_frame_counts (query : QueryFn) (typeA typeB : List Bool)
    (sameName : Bool) (rmax : ℚ) (molsA molsB : List Nat) (frames : List Frame) :
    ∀ lastF : Frame, frames.getLast? = some lastF → ∀ st : LoopState,
      (frames.foldl (process_frame query typeA typeB sameName rmax true molsA molsB)
          st).preFilter
        = some (frame_pre_count query typeA typeB sameName rmax lastF) ∧
      (frames.foldl (process_frame query typeA typeB sameName rmax true molsA molsB)
          st).postFilter
        = some (frame_post_count query typeA typeB sameName rmax molsA molsB lastF) := by
  induction frames with
  | nil => intro lastF h; simp at h
  | cons a as ih =>
    intro lastF hlast st
    cases as with
    | nil =>
      simp only [List.getLast?_singleton, Option.some_inj] at hlast
      subst hlast
      simp [process_frame, frame_pre_count, frame_post_count]
    | cons b bs =>
      rw [List.foldl_cons]
      exact ih lastF (by rwa [List.getLast?_cons_cons] at hlast) _

end LoopLemmas

/-- C3: when at least one frame is processed, the returned
survivalFraction is `1` with `exclude_bonded = false`, and with
`exclude_bonded = true` it is the post-exclusion pair count of the LAST
processed frame divided by that same frame's pre-exclusion pair count —
not an average over frames. -/
theorem intermolecular_rdf_survival (query : QueryFn) (cluster : ClusterFn)
    (next : ℚ → ℚ) (snap0 : Frame) (tl : List Frame) (A_name B_name : String)
    (start : Nat) (stop : Option Nat) (r_max : Option ℚ) (r_min : ℚ) (bins : ℤ)
    (iA iB : Nat) (lastF : Frame)
    (hbins : 1 ≤ bins) (hrmin : 0 ≤ r_min)
    (hrm : r_min < eff_rmax next r_max snap0.box)
    (hA : typeIndex snap0.types A_name = some iA)
    (hB : typeIndex snap0.types B_name = some iB)
    (hlast : (pySlice start stop (snap0 :: tl)).getLast? = some lastF) :
    (∃ hist, intermolecular_rdf query cluster next (snap0 :: tl) A_name B_name
        start stop r_max r_min bins false = .ok (hist, 1)) ∧
    (frame_pre_count query (typeMask snap0 iA) (typeMask snap0 iB)
        (A_name == B_name) (eff_rmax next r_max snap0.box) lastF ≠ 0 →
      ∃ hist, intermolecular_rdf query cluster next (snap0 :: tl) A_name B_name
        start stop r_max r_min bins true =
        .ok (hist,
          ((frame_post_count query (typeMask snap0 iA) (typeMask snap0 iB)
              (A_name == B_name) (eff_rmax next r_max snap0.box)
              (maskSelect (typeMask snap0 iA) (snap_molecule_indices cluster snap0))
              (maskSelect (typeMask snap0 iB) (snap_molecule_indices cluster snap0))
              lastF : ℚ) /
            (frame_pre_count query (typeMask snap0 iA) (typeMask snap0 iB)
              (A_name == B_name) (eff_rmax next r_max snap0.box) lastF : ℚ)))) := by
  have hcond : ¬(bins < 1 ∨ r_min < 0 ∨ r_min ≥ eff_rmax next r_max snap0.box) := by
    push_neg
    exact ⟨hbins, hrmin, hrm⟩
  constructor
  · simp only [intermolecular_rdf]
    rw [if_neg hcond, hA, hB]
    exact ⟨_, rfl⟩
  · intro hpre
    simp only [intermolecular_rdf]
    rw [if_neg hcond, hA, hB]
    simp only [if_true]
    obtain ⟨h1, h2⟩ := foldl_process_frame_counts query (typeMask snap0 iA)
      (typeMask snap0 iB) (A_name == B_name) (eff_rmax next r_max snap0.box)
      (maskSelect (typeMask snap0 iA) (snap_molecule_indices cluster snap0))
      (maskSelect (typeMask snap0 iB) (snap_molecule_indices cluster snap0))
      (pySlice start stop (snap0 :: tl)) lastF hlast ⟨[], none, none⟩
    rw [h1, h2]
    refine ⟨(List.foldl (process_frame query (typeMask snap0 iA) (typeMask snap0 iB)
        (A_name == B_name) (eff_rmax next r_max snap0.box) true
        (maskSelect (typeMask snap0 iA) (snap_molecule_indices cluster snap0))
        (maskSelect (typeMask snap0 iB) (snap_molecule_indices cluster snap0)))
        ⟨[], none, none⟩ (pySlice start stop (snap0 :: tl))).rdfAcc, ?_⟩
    simp [hpre]

/-- C8: when a species name is absent from the first frame's type
registry (and the preceding validation passes), the call fails with a
Lookup error, before any frame is accumulated. -/
theorem intermolecular_rdf_unknown_name (query : QueryFn) (cluster : ClusterFn)
    (next : ℚ → ℚ) (snap0 : Frame) (tl : List Frame) (A_name B_name : String)
    (start : Nat) (stop : Option Nat) (r_max : Option ℚ) (r_min : ℚ) (bins : ℤ)
    (exclude_bonded : Bool)
    (hbins : 1 ≤ bins) (hrmin : 0 ≤ r_min)
    (hrm : r_min < eff_rmax next r_max snap0.box)
    (hAB : typeIndex snap0.types A_name = none ∨ typeIndex snap0.types B_name = none) :
    intermolecular_rdf query cluster next (snap0 :: tl) A_name B_name
      start stop r_max r_min bins exclude_bonded = .error .lookupError := by
  have hcond : ¬(bins < 1 ∨ r_min < 0 ∨ r_min ≥ eff_rmax next r_max snap0.box) := by
    push_neg
    exact ⟨hbins, hrmin, hrm⟩
  simp only [intermolecular_rdf]
  rw [if_neg hcond]
  rcases hAB with hA | hB
  · rw [hA]
  · rw [hB]
    cases typeIndex snap0.types A_name <;> rfl

/-- C9: the call fails with an InvalidInput error — carrying no partial
result — on an empty trajectory, and on `bins < 1`, `r_min < 0` or
`r_min ≥ r_max` (the latter three are the freud `RDF` constructor's
validation, modelled from the spec). -/
theorem intermolecular_rdf_invalid_input (query : QueryFn) (cluster : ClusterFn)
    (next : ℚ → ℚ) (trajectory : List Frame) (A_name B_name : String)
    (start : Nat) (stop : Option Nat) (r_max : Option ℚ) (r_min : ℚ) (bins : ℤ)
    (exclude_bonded : Bool) :
    (trajectory = [] →
      intermolecular_rdf query cluster next trajectory A_name B_name
        start stop r_max r_min bins exclude_bonded = .error .invalidInput) ∧
    (∀ snap0 tl, trajectory = snap0 :: tl →
      (bins < 1 ∨ r_min < 0 ∨ r_min ≥ eff_rmax next r_max snap0.box) →
      intermolecular_rdf query cluster next trajectory A_name B_name
        start stop r_max r_min bins exclude_bonded = .error .invalidInput) := by
  constructor
  · intro h
    subst h
    rfl
  · intro snap0 tl h hbad
    subst h
    simp only [intermolecular_rdf]
    rw [if_pos hbad]

/-- C10: with `exclude_bonded = true` and a frame range selecting no
frames, the final normalization reads the never-assigned
`pre_filter`/`post_filter` locals (a NameError), so the call fails
instead of returning a result. -/
theorem intermolecular_rdf_empty_slice_fails (query : QueryFn) (cluster : ClusterFn)
    (next : ℚ → ℚ) (snap0 : Frame) (tl : List Frame) (A_name B_name : String)
    (start : Nat) (stop : Option Nat) (r_max : Option ℚ) (r_min : ℚ) (bins : ℤ)
    (iA iB : Nat)
    (hbins : 1 ≤ bins) (hrmin : 0 ≤ r_min)
    (hrm : r_min < eff_rmax next r_max snap0.box)
    (hA : typeIndex snap0.types A_name = some iA)
    (hB : typeIndex snap0.types B_name = some iB)
    (hempty : pySlice start stop (snap0 :: tl) = []) :
    intermolecular_rdf query cluster next (snap0 :: tl) A_name B_name
      start stop r_max r_min bins true = .error .runtimeError := by
  have hcond : ¬(bins < 1 ∨ r_min < 0 ∨ r_min ≥ eff_rmax next r_max snap0.box) := by
    push_neg
    exact ⟨hbins, hrmin, hrm⟩
  simp only [intermolecular_rdf]
  rw [if_neg hcond, hA, hB, hempty]
  rfl

/-- A concrete two-particle, one-type, one-bond frame in a cubic box,
used by witnesses. -/
def snapW : Frame :=
  { position := [(0, 0, 0), (1, 0, 0)], typeid := [0, 0], types := ["A"],
    bonds := [(0, 1)], box := ⟨10, 10, 10, 0, 0, 0⟩ }

/-- A concrete stand-in for the external neighbor-query collaborator,
used by witnesses: it always reports the single pair `(0, 1)` at
distance `1`. -/
def queryW : QueryFn := fun _ _ _ _ _ => [⟨0, 1, 1⟩]

/-- A concrete stand-in for the external clustering collaborator, used
by witnesses: particle `0` in molecule `0`, particle `1` in molecule
`1`. -/
def clusterW : ClusterFn := fun _ => [0, 1]

/-- Witness for C3 at a concrete input. -/
theorem intermolecular_rdf_survival_witness :
    (∃ hist, intermolecular_rdf queryW clusterW floatStepDown [snapW] "A" "A"
        0 none (some 4) 0 1000 false = .ok (hist, 1)) ∧
    (frame_pre_count queryW (typeMask snapW 0) (typeMask snapW 0)
        ("A" == "A") (eff_rmax floatStepDown (some 4) snapW.box) snapW ≠ 0 →
      ∃ hist, intermolecular_rdf queryW clusterW floatStepDown [snapW] "A" "A"
        0 none (some 4) 0 1000 true =
        .ok (hist,
          ((frame_post_count queryW (typeMask snapW 0) (typeMask snapW 0)
              ("A" == "A") (eff_rmax floatStepDown (some 4) snapW.box)
              (maskSelect (typeMask snapW 0) (snap_molecule_indices clusterW snapW))
              (maskSelect (typeMask snapW 0) (snap_molecule_indices clusterW snapW))
              snapW : ℚ) /
            (frame_pre_count queryW (typeMask snapW 0) (typeMask snapW 0)
              ("A" == "A") (eff_rmax floatStepDown (some 4) snapW.box) snapW : ℚ)))) :=
  intermolecular_rdf_survival queryW clusterW floatStepDown snapW [] "A" "A"
    0 none (some 4) 0 1000 0 0 snapW
    (by norm_num) (by norm_num) (by norm_num [eff_rmax])
    (by rfl) (by rfl) (by rfl)

/-- Witness for C8 at a concrete input. -/
theorem intermolecular_rdf_unknown_name_witness :
    intermolecular_rdf queryW clusterW floatStepDown [snapW] "B" "A"
      0 none (some 4) 0 1000 true = .error .lookupError :=
  intermolecular_rdf_unknown_name queryW clusterW floatStepDown snapW [] "B" "A"
    0 none (some 4) 0 1000 true
    (by norm_num) (by norm_num) (by norm_num [eff_rmax]) (Or.inl (by rfl))

/-- Witness for C9 at concrete inputs: the empty trajectory, and a
nonempty trajectory with `bins = 0`. -/
theorem intermolecular_rdf_invalid_input_witness :
    intermolecular_rdf queryW clusterW floatStepDown [] "A" "A"
      0 none (some 4) 0 1000 true = .error .invalidInput ∧
    intermolecular_rdf queryW clusterW floatStepDown [snapW] "A" "A"
      0 none (some 4) 0 0 true = .error .invalidInput :=
  ⟨(intermolecular_rdf_invalid_input queryW clusterW floatStepDown [] "A" "A"
      0 none (some 4) 0 1000 true).1 rfl,
   (intermolecular_rdf_invalid_input queryW clusterW floatStepDown [snapW] "A" "A"
      0 none (some 4) 0 0 true).2 snapW [] rfl (Or.inl (by norm_num))⟩

/-- Witness for C10 at a concrete input (`start` past the end of the
trajectory, so the slice is empty). -/
theorem intermolecular_rdf_empty_slice_fails_witness :
    intermolecular_rdf queryW clusterW floatStepDown [snapW] "A" "A"
      5 none (some 4) 0 1000 true = .error .runtimeError :=
  intermolecular_rdf_empty_slice_fails queryW clusterW floatStepDown snapW [] "A" "A"
    5 none (some 4) 0 1000 0 0
    (by norm_num) (by norm_num) (by norm_num [eff_rmax]) (by rfl) (by rfl) (by rfl)
